import Mathlib

/- Verification development for the SINTA journals scraper and ETL pipeline.
   Shallow embedding of sinta_journals_etl.py (record extraction, transform,
   CSV sink, load/run orchestration) and sinta_journals_scrape.py (pagination
   loop), with theorems settling the specification claims. -/

set_option linter.unusedVariables false
set_option linter.unnecessarySeqFocus false

/-! ## String helpers mirroring Python primitives -/

/-- Python whitespace class, as used by str.strip and the regex class for
whitespace. -/
def isPySpace (c : Char) : Bool :=
  c == ' ' || c == '\t' || c == '\n' || c == '\r' || c == '\x0b' || c == '\x0c'

/-- Python str.strip on a character list. -/
def pyStripChars (cs : List Char) : List Char :=
  ((cs.dropWhile isPySpace).reverse.dropWhile isPySpace).reverse

/-- Python str.strip. -/
def pyStrip (s : String) : String := String.mk (pyStripChars s.data)

/-- Tests whether the second list starts with the first one. -/
def leadEq : List Char → List Char → Bool
  | [], _ => true
  | _ :: _, [] => false
  | a :: as, b :: bs => a == b && leadEq as bs

/-- Substring containment on character lists, needle first. -/
def hasSub (needle : List Char) : List Char → Bool
  | [] => needle.isEmpty
  | c :: t => leadEq needle (c :: t) || hasSub needle t

/-- Python substring test: needle in hay. -/
def substr (needle hay : String) : Bool := hasSub needle.data hay.data

/-! ## Models of the regular-expression searches in the extractor -/

/-- Head match for the regex tail of P-ISSN/E-ISSN patterns: whitespace, a
colon, whitespace, then a nonempty maximal digit capture. -/
def matchColonDigits (cs : List Char) : Option (List Char) :=
  match cs.dropWhile isPySpace with
  | ':' :: rest =>
    let ds := (rest.dropWhile isPySpace).takeWhile Char.isDigit
    if ds.isEmpty then none else some ds
  | _ => none

/-- Leftmost search for a literal label followed by colon and digits, the shape
of the P-ISSN and E-ISSN regexes in the source. -/
def searchLabelColonDigits (label : List Char) : List Char → Option (List Char)
  | [] => none
  | c :: t =>
    match (if leadEq label (c :: t) then matchColonDigits ((c :: t).drop label.length)
           else none) with
    | some r => some r
    | none => searchLabelColonDigits label t

/-- Head match for the Subject Area regex tail: whitespace, colon, whitespace,
then a nonempty maximal run of characters other than a pipe. -/
def matchColonNonPipe (cs : List Char) : Option (List Char) :=
  match cs.dropWhile isPySpace with
  | ':' :: rest =>
    let ds := (rest.dropWhile isPySpace).takeWhile (fun c => !(c == '|'))
    if ds.isEmpty then none else some ds
  | _ => none

/-- Leftmost search for the Subject Area pattern of the source. -/
def searchLabelColonNonPipe (label : List Char) : List Char → Option (List Char)
  | [] => none
  | c :: t =>
    match (if leadEq label (c :: t) then matchColonNonPipe ((c :: t).drop label.length)
           else none) with
    | some r => some r
    | none => searchLabelColonNonPipe label t

/-- Leftmost search for a literal followed by a nonempty digit capture, the
shape of the profile-id regex in the source. -/
def searchLitDigits (lit : List Char) : List Char → Option (List Char)
  | [] => none
  | c :: t =>
    match (if leadEq lit (c :: t) then
             (let ds := ((c :: t).drop lit.length).takeWhile Char.isDigit
              if ds.isEmpty then none else some ds)
           else none) with
    | some r => some r
    | none => searchLitDigits lit t

/-- Leftmost search for the accreditation pattern: the letter S followed by a
nonempty maximal digit run. -/
def searchSDigits : List Char → Option (List Char)
  | [] => none
  | c :: t =>
    if c == 'S' then
      let ds := t.takeWhile Char.isDigit
      if ds.isEmpty then searchSDigits t else some ('S' :: ds)
    else searchSDigits t

/-- The P-ISSN search of the extractor. -/
def searchPIssn (s : String) : Option String :=
  (searchLabelColonDigits ("P-ISSN".data) s.data).map String.mk

/-- The E-ISSN search of the extractor. -/
def searchEIssn (s : String) : Option String :=
  (searchLabelColonDigits ("E-ISSN".data) s.data).map String.mk

/-- The Subject Area search of the extractor. -/
def searchSubjectArea (s : String) : Option String :=
  (searchLabelColonNonPipe ("Subject Area".data) s.data).map String.mk

/-- The accreditation search of the extractor. -/
def searchAccreditation (s : String) : Option String :=
  (searchSDigits s.data).map String.mk

/-- The journal profile id search of the extractor. -/
def searchProfileDigits (s : String) : Option String :=
  (searchLitDigits ("/profile/".data) s.data).map String.mk

/-! ## Markup fragment model -/

/-- One anchor element: its href attribute with empty default, its stripped
text, and its full markup as rendered by str, used for class hints. -/
structure Anchor where
  href : String
  text : String
  markup : String
deriving DecidableEq

/-- The name container div of one journal item. -/
structure NameDiv where
  link : Option Anchor
deriving DecidableEq

/-- The location container div of one journal item. -/
structure LocDiv where
  link : Option Anchor
deriving DecidableEq

/-- The status container: accredited marker text, Scopus marker presence, and
the href of an anchor whose href matches the garuda pattern when present. -/
structure StatPrevDiv where
  accreditedText : Option String
  scopusPresent : Bool
  garudaHref : Option String
deriving DecidableEq

/-- The statistics container: whether any row container is found, plus the
label and value texts in document order. -/
structure StatsBlock where
  hasRows : Bool
  labels : List String
  values : List String
deriving DecidableEq

/-- One candidate journal fragment, exposing exactly the lookups the source
extractor performs; a none field models an absent sub-element. -/
structure JournalItem where
  affilName : Option NameDiv
  abbrevLinks : Option (List Anchor)
  affilLoc : Option LocDiv
  profileIdText : Option String
  statPrev : Option StatPrevDiv
  statsBlock : Option StatsBlock
  coverSrc : Option String
deriving DecidableEq

/-- The normalized journal record, with the fields and order of the dict built
by the source extractor. -/
structure JournalData where
  journal_id : String
  journal_name : String
  profile_url : String
  google_scholar_url : String
  website_url : String
  editor_url : String
  affiliation : String
  affiliation_url : String
  p_issn : String
  e_issn : String
  subject_area : String
  accreditation : String
  is_scopus_indexed : Bool
  is_garuda_indexed : Bool
  garuda_url : String
  impact_score : String
  h5_index : String
  citations_5yr : String
  citations_total : String
  cover_image_url : String
  source_file : String
  extraction_index : Nat
  extracted_at : String
deriving DecidableEq

/-! ## Record extractor -/

/-- Journal name and profile URL from the name container. -/
def nameAndProfile (item : JournalItem) : String × String :=
  match item.affilName with
  | some nd =>
    match nd.link with
    | some a => (pyStrip a.text, a.href)
    | none => ("", "")
  | none => ("", "")

/-- One step of the link-classification loop: assigns the scholar, website or
editor URL according to the chain of conditions of the source, overwriting the
previous value on a repeated match. -/
def classifyStep (acc : String × String × String) (l : Anchor) : String × String × String :=
  if substr "scholar.google" l.href then (l.href, acc.2.1, acc.2.2)
  else if substr "Website" (pyStrip l.text) || substr "el-globe" l.markup then
    (acc.1, l.href, acc.2.2)
  else if substr "Editor URL" (pyStrip l.text) || substr "el-globe-alt" l.markup then
    (acc.1, acc.2.1, l.href)
  else acc

/-- The link-classification loop over the anchors of the abbrev container,
yielding scholar, website and editor URLs. -/
def classifyLinks (links : List Anchor) : String × String × String :=
  links.foldl classifyStep ("", "", "")

/-- Scholar, website and editor URLs of one item. -/
def scholarWebEditor (item : JournalItem) : String × String × String :=
  match item.abbrevLinks with
  | some links => classifyLinks links
  | none => ("", "", "")

/-- Affiliation text and URL from the location container. -/
def affiliationPair (item : JournalItem) : String × String :=
  match item.affilLoc with
  | some ld =>
    match ld.link with
    | some a => (pyStrip a.text, a.href)
    | none => ("", "")
  | none => ("", "")

/-- P-ISSN, E-ISSN and subject area from the identifiers block. -/
def issnSubject (item : JournalItem) : String × String × String :=
  match item.profileIdText with
  | some text =>
    ((searchPIssn text).getD "", (searchEIssn text).getD "",
      match searchSubjectArea text with
      | some c => pyStrip c
      | none => "")
  | none => ("", "", "")

/-- Accreditation, Scopus flag, Garuda flag and Garuda URL from the status
container. -/
def statPrevFields (item : JournalItem) : String × Bool × Bool × String :=
  match item.statPrev with
  | some sp =>
    let accreditation :=
      match sp.accreditedText with
      | some t =>
        match searchAccreditation (pyStrip t) with
        | some a => a
        | none => ""
      | none => ""
    match sp.garudaHref with
    | some h => (accreditation, sp.scopusPresent, true, h)
    | none => (accreditation, sp.scopusPresent, false, "")
  | none => ("", false, false, "")

/-- The four statistics values label-matched in the source. -/
structure StatVals where
  impact_score : String
  h5_index : String
  citations_5yr : String
  citations_total : String
deriving DecidableEq

/-- One step of the positional label/value pairing loop of the source. -/
def pairStep (acc : StatVals) (lv : String × String) : StatVals :=
  let labelText := pyStrip lv.1
  let valueText := pyStrip lv.2
  if substr "Impact" labelText then { acc with impact_score := valueText }
  else if substr "H5-index" labelText then { acc with h5_index := valueText }
  else if substr "Citations 5yr" labelText then { acc with citations_5yr := valueText }
  else if substr "Citations" labelText && !(substr "5yr" labelText) then
    { acc with citations_total := valueText }
  else acc

/-- Statistics extraction: guarded by row presence, pairing labels and values
positionally by zip, which truncates at the shorter sequence. -/
def statValsOf (item : JournalItem) : StatVals :=
  match item.statsBlock with
  | some sb =>
    if sb.hasRows then (sb.labels.zip sb.values).foldl pairStep ⟨"", "", "", ""⟩
    else ⟨"", "", "", ""⟩
  | none => ⟨"", "", "", ""⟩

/-- Cover image URL with empty default. -/
def coverOf (item : JournalItem) : String :=
  match item.coverSrc with
  | some src => src
  | none => ""

/-- Journal id parsed from the profile URL, guarded by URL truthiness as in
the source. -/
def journalIdOf (profileUrl : String) : String :=
  if profileUrl.isEmpty then ""
  else
    match searchProfileDigits profileUrl with
    | some d => d
    | none => ""

/-- The record built by the body of the source extractor for one fragment. -/
def extractJournalFields (item : JournalItem) (sourceFile : String) (index : Nat)
    (now : String) : JournalData :=
  { journal_id := journalIdOf (nameAndProfile item).2
    journal_name := (nameAndProfile item).1
    profile_url := (nameAndProfile item).2
    google_scholar_url := (scholarWebEditor item).1
    website_url := (scholarWebEditor item).2.1
    editor_url := (scholarWebEditor item).2.2
    affiliation := (affiliationPair item).1
    affiliation_url := (affiliationPair item).2
    p_issn := (issnSubject item).1
    e_issn := (issnSubject item).2.1
    subject_area := (issnSubject item).2.2
    accreditation := (statPrevFields item).1
    is_scopus_indexed := (statPrevFields item).2.1
    is_garuda_indexed := (statPrevFields item).2.2.1
    garuda_url := (statPrevFields item).2.2.2
    impact_score := (statValsOf item).impact_score
    h5_index := (statValsOf item).h5_index
    citations_5yr := (statValsOf item).citations_5yr
    citations_total := (statValsOf item).citations_total
    cover_image_url := coverOf item
    source_file := sourceFile
    extraction_index := index
    extracted_at := now }

/-- The extractor entry point: the source wraps the body in a try whose
handler returns None, but under the fragment model no operation of the body
can raise, so the record is always returned. -/
def extractJournalData (item : JournalItem) (sourceFile : String) (index : Nat)
    (now : String) : Option JournalData :=
  some (extractJournalFields item sourceFile index now)

/-- The fragment with every optional sub-element absent. -/
def emptyJournalItem : JournalItem :=
  ⟨none, none, none, none, none, none, none⟩

/-- A fragment whose containers are all present but hold no usable content. -/
def hollowJournalItem : JournalItem :=
  ⟨some ⟨none⟩, some [], some ⟨none⟩, some "", some ⟨none, false, none⟩,
    some ⟨false, [], []⟩, none⟩

/-- The record with every field at its documented empty or false default. -/
def defaultRecord (sourceFile : String) (index : Nat) (now : String) : JournalData :=
  ⟨"", "", "", "", "", "", "", "", "", "", "", "", false, false, "", "", "", "",
    "", "", sourceFile, index, now⟩

/-- C6: for any fragment lacking every optional sub-element, the Extractor
returns a record in which every schema key is present at its documented
empty or false default; the function is total, so no failure escapes it and
no record misses a key. The same holds when the containers are present but
hold no usable content. -/
theorem extractor_totality_defaults (sourceFile : String) (index : Nat) (now : String) :
    extractJournalData emptyJournalItem sourceFile index now
        = some (defaultRecord sourceFile index now)
      ∧ extractJournalData hollowJournalItem sourceFile index now
        = some (defaultRecord sourceFile index now) :=
  ⟨rfl, rfl⟩

/-- The profile URL of the worked example of the specification. -/
def exampleHref : String := "https://sinta.kemdiktisaintek.go.id/journals/profile/4321"

/-- The concrete fragment of the worked example in the specification. -/
def exampleItem : JournalItem :=
  { affilName := some ⟨some ⟨exampleHref, "Jurnal X", ""⟩⟩
    abbrevLinks := none
    affilLoc := none
    profileIdText := some "P-ISSN : 12345678 | E-ISSN : 87654321 | Subject Area : Computer Science"
    statPrev := some ⟨some "S2", false, none⟩
    statsBlock := none
    coverSrc := none }

/-- C8: on the fragment with name link text Jurnal X, href ending in
profile/4321, the given identifiers text and accredited marker S2, the
Extractor returns journal_id 4321, journal_name Jurnal X, p_issn 12345678,
e_issn 87654321, subject_area Computer Science, accreditation S2. -/
theorem extractor_worked_example :
    extractJournalData exampleItem "sinta_journals_page1_20240101_000000.html" 1 "2024-01-01T00:00:00"
      = some ⟨"4321", "Jurnal X", exampleHref, "", "", "", "", "", "12345678",
          "87654321", "Computer Science", "S2", false, false, "", "", "", "", "",
          "", "sinta_journals_page1_20240101_000000.html", 1, "2024-01-01T00:00:00"⟩ := by
  decide

/-! ## Page transformer -/

/-- One raw page capture: the source file name and the candidate fragments
found in its markup in document order. -/
structure PageCapture where
  file : String
  items : List JournalItem
deriving DecidableEq

/-- The extraction counters of the run statistics touched by transform. -/
structure TransformStats where
  successful_extractions : Nat
  failed_extractions : Nat
deriving DecidableEq

/-- The type of the per-fragment extractor called by transform. -/
abbrev Extractor := JournalItem → String → Nat → String → Option JournalData

/-- The inner loop of transform over the enumerated fragments of one page: a
some result is appended and counted successful, a none result contributes
nothing and touches no counter, exactly as the if guard of the source. -/
def transformLoop (ex : Extractor) (file now : String) :
    List (Nat × JournalItem) → List JournalData × TransformStats →
      List JournalData × TransformStats
  | [], acc => acc
  | q :: qs, acc =>
    match ex q.2 file (q.1 + 1) now with
    | some jd =>
      transformLoop ex file now qs
        (acc.1 ++ [jd], ⟨acc.2.successful_extractions + 1, acc.2.failed_extractions⟩)
    | none => transformLoop ex file now qs acc

/-- Transform of one page: iterate the extractor over the enumerated candidate
fragments, passing the one-based index. -/
def transformPageWith (ex : Extractor) (now : String)
    (acc : List JournalData × TransformStats) (p : PageCapture) :
    List JournalData × TransformStats :=
  transformLoop ex p.file now p.items.enum acc

/-- Transform over the capture list, accumulating records and counters across
pages as the source does on the shared statistics dict. -/
def transformWith (ex : Extractor) (now : String) :
    List PageCapture → List JournalData × TransformStats →
      List JournalData × TransformStats
  | [], acc => acc
  | p :: ps, acc => transformWith ex now ps (transformPageWith ex now acc p)

/-- The transform phase of the ETL, started on empty output and zero counters
with the real extractor. -/
def transform (pages : List PageCapture) (now : String) :
    List JournalData × TransformStats :=
  transformWith extractJournalData now pages ([], ⟨0, 0⟩)

/-- The records one page contributes: extractor results over the enumerated
fragments, none results dropped. -/
def blockWith (ex : Extractor) (now : String) (p : PageCapture) : List JournalData :=
  p.items.enum.filterMap (fun q => ex q.2 p.file (q.1 + 1) now)

/-- The records one page contributes under the real extractor. -/
def pageBlock (now : String) (p : PageCapture) : List JournalData :=
  blockWith extractJournalData now p

theorem transformLoop_spec (ex : Extractor) (file now : String) :
    ∀ (l : List (Nat × JournalItem)) (rs : List JournalData) (st : TransformStats),
      transformLoop ex file now l (rs, st)
        = (rs ++ l.filterMap (fun q => ex q.2 file (q.1 + 1) now),
            ⟨st.successful_extractions
                + (l.filterMap (fun q => ex q.2 file (q.1 + 1) now)).length,
              st.failed_extractions⟩) := by
  intro l
  induction l with
  | nil => intro rs st; simp [transformLoop]
  | cons q qs ih =>
    intro rs st
    cases h : ex q.2 file (q.1 + 1) now with
    | none => simp [transformLoop, h, ih rs st]
    | some jd =>
      simp only [transformLoop, h, ih, List.filterMap_cons]
      simp [List.append_assoc, Nat.add_assoc, Nat.add_comm 1]

theorem transformPageWith_spec (ex : Extractor) (now : String)
    (rs : List JournalData) (st : TransformStats) (p : PageCapture) :
    transformPageWith ex now (rs, st) p
      = (rs ++ blockWith ex now p,
          ⟨st.successful_extractions + (blockWith ex now p).length,
            st.failed_extractions⟩) := by
  simp [transformPageWith, blockWith, transformLoop_spec]

theorem transformWith_spec (ex : Extractor) (now : String) :
    ∀ (ps : List PageCapture) (rs : List JournalData) (st : TransformStats),
      transformWith ex now ps (rs, st)
        = (rs ++ ps.flatMap (blockWith ex now),
            ⟨st.successful_extractions + (ps.flatMap (blockWith ex now)).length,
              st.failed_extractions⟩) := by
  intro ps
  induction ps with
  | nil => intro rs st; simp [transformWith]
  | cons p ps ih =>
    intro rs st
    simp only [transformWith, transformPageWith_spec, ih, List.flatMap_cons]
    simp [List.append_assoc, Nat.add_assoc]

theorem transform_spec (pages : List PageCapture) (now : String) :
    transform pages now
      = (pages.flatMap (pageBlock now),
          ⟨(pages.flatMap (pageBlock now)).length, 0⟩) := by
  unfold transform
  rw [transformWith_spec]
  simp only [List.nil_append, Nat.zero_add]
  rfl

/-! ## File-name ordering used by extract -/

/-- Lexicographic code-point comparison of character lists, the order Python
uses to sort the capture file names. -/
def strLeChars : List Char → List Char → Bool
  | [], _ => true
  | _ :: _, [] => false
  | a :: as, b :: bs =>
    if a.toNat < b.toNat then true
    else if b.toNat < a.toNat then false
    else strLeChars as bs

/-- Lexicographic code-point comparison of strings. -/
def strLe (a b : String) : Bool := strLeChars a.data b.data

theorem strLeChars_total : ∀ a b, strLeChars a b = true ∨ strLeChars b a = true := by
  intro a
  induction a with
  | nil => intro b; left; simp [strLeChars]
  | cons x xs ih =>
    intro b
    match b with
    | [] => right; simp [strLeChars]
    | y :: ys =>
      simp only [strLeChars]
      by_cases hxy : x.toNat < y.toNat <;> by_cases hyx : y.toNat < x.toNat <;>
        simp [hxy, hyx] <;> first | omega | exact ih ys

theorem strLeChars_trans : ∀ (a b c : List Char),
    strLeChars a b = true → strLeChars b c = true → strLeChars a c = true := by
  intro a
  induction a with
  | nil => intro b c _ _; simp [strLeChars]
  | cons x xs ih =>
    intro b c h1 h2
    match b, c with
    | [], _ => simp [strLeChars] at h1
    | _ :: _, [] => simp [strLeChars] at h2
    | y :: ys, z :: zs =>
      simp only [strLeChars] at h1 h2 ⊢
      rcases Nat.lt_trichotomy x.toNat y.toNat with hxy | hxy | hxy
      · rcases Nat.lt_trichotomy y.toNat z.toNat with hyz | hyz | hyz
        · simp [show x.toNat < z.toNat by omega]
        · simp [show x.toNat < z.toNat by omega]
        · simp [show ¬ y.toNat < z.toNat by omega, hyz] at h2
      · rcases Nat.lt_trichotomy y.toNat z.toNat with hyz | hyz | hyz
        · simp [show x.toNat < z.toNat by omega]
        · simp only [show ¬ x.toNat < z.toNat by omega,
            show ¬ z.toNat < x.toNat by omega, if_false, ite_false]
          simp [show ¬ x.toNat < y.toNat by omega,
            show ¬ y.toNat < x.toNat by omega] at h1
          simp [show ¬ y.toNat < z.toNat by omega,
            show ¬ z.toNat < y.toNat by omega] at h2
          exact ih ys zs h1 h2
        · simp [show ¬ y.toNat < z.toNat by omega, hyz] at h2
      · simp [show ¬ x.toNat < y.toNat by omega, hxy] at h1

theorem strLe_total (a b : String) : strLe a b = true ∨ strLe b a = true :=
  strLeChars_total a.data b.data

theorem strLe_trans {a b c : String} (h1 : strLe a b = true) (h2 : strLe b c = true) :
    strLe a c = true :=
  strLeChars_trans a.data b.data c.data h1 h2

/-- Stable insertion of one capture into a name-sorted capture list. -/
def insertCap (c : PageCapture) : List PageCapture → List PageCapture
  | [] => [c]
  | d :: ds => if strLe c.file d.file then c :: d :: ds else d :: insertCap c ds

/-- The extract phase orders the capture files by name, modelling the sorted
call of the source on the html file listing. -/
def sortCaptures : List PageCapture → List PageCapture
  | [] => []
  | c :: cs => insertCap c (sortCaptures cs)

theorem mem_insertCap {x c : PageCapture} :
    ∀ {l : List PageCapture}, x ∈ insertCap c l → x = c ∨ x ∈ l := by
  intro l
  induction l with
  | nil => intro h; simp [insertCap] at h; exact Or.inl h
  | cons d ds ih =>
    intro h
    simp only [insertCap] at h
    by_cases hle : strLe c.file d.file
    · simp [hle] at h
      rcases h with h | h | h
      · exact Or.inl h
      · exact Or.inr (by simp [h])
      · exact Or.inr (by simp [h])
    · simp [hle] at h
      rcases h with h | h
      · exact Or.inr (by simp [h])
      · rcases ih h with h2 | h2
        · exact Or.inl h2
        · exact Or.inr (by simp [h2])

theorem pairwise_insertCap {c : PageCapture} :
    ∀ {l : List PageCapture},
      l.Pairwise (fun a b => strLe a.file b.file = true) →
      (insertCap c l).Pairwise (fun a b => strLe a.file b.file = true) := by
  intro l
  induction l with
  | nil => intro _; simp [insertCap]
  | cons d ds ih =>
    intro h
    rw [List.pairwise_cons] at h
    simp only [insertCap]
    by_cases hle : strLe c.file d.file
    · rw [if_pos hle]
      refine List.Pairwise.cons ?_ (List.Pairwise.cons h.1 h.2)
      intro b hb
      rcases List.mem_cons.mp hb with hb | hb
      · exact hb ▸ hle
      · exact strLe_trans hle (h.1 b hb)
    · rw [if_neg hle]
      have hdc : strLe d.file c.file = true := by
        rcases strLe_total c.file d.file with h2 | h2
        · exact absurd h2 hle
        · exact h2
      refine List.Pairwise.cons ?_ (ih h.2)
      intro b hb
      rcases mem_insertCap hb with hb | hb
      · exact hb ▸ hdc
      · exact h.1 b hb

/-- The sorted capture list is pairwise ordered by file name. -/
theorem sortCaptures_sorted :
    ∀ (l : List PageCapture),
      (sortCaptures l).Pairwise (fun a b => strLe a.file b.file = true) := by
  intro l
  induction l with
  | nil => simp [sortCaptures]
  | cons c cs ih => exact pairwise_insertCap ih

/-! ## Order of the transformed record sequence -/

theorem pageBlock_eq_map (now : String) (p : PageCapture) :
    pageBlock now p
      = p.items.enum.map (fun q => extractJournalFields q.2 p.file (q.1 + 1) now) := by
  unfold pageBlock blockWith extractJournalData
  exact congrFun
    (List.filterMap_eq_map fun q : Nat × JournalItem =>
      extractJournalFields q.2 p.file (q.1 + 1) now) _

/-- Within one page the emitted extraction indices are exactly 1..N in
document order. -/
theorem pageBlock_map_index (now : String) (p : PageCapture) :
    (pageBlock now p).map (fun r => r.extraction_index)
      = List.range' 1 p.items.length := by
  rw [pageBlock_eq_map, List.map_map, List.range'_eq_map_range,
    ← List.enum_map_fst p.items, List.map_map]
  apply List.map_congr_left
  intro q hq
  have h1 : (extractJournalFields q.2 p.file (q.1 + 1) now).extraction_index
      = q.1 + 1 := rfl
  simp [Function.comp, h1, Nat.add_comm]

/-- Strict lexicographic order on pairs of page position and extraction
index. -/
def keyLt (a b : Nat × Nat) : Prop :=
  a.1 < b.1 ∨ (a.1 = b.1 ∧ a.2 < b.2)

/-- The order keys of the records each page block contributes, starting at a
given page position. -/
def pageKeysFrom (now : String) : Nat → List PageCapture → List (Nat × Nat)
  | _, [] => []
  | n, p :: ps =>
    ((pageBlock now p).map (fun r => (n, r.extraction_index)))
      ++ pageKeysFrom now (n + 1) ps

/-- The order keys of the whole transformed record sequence. -/
def pageKeys (now : String) (pages : List PageCapture) : List (Nat × Nat) :=
  pageKeysFrom now 0 pages

theorem mem_pageKeysFrom_le (now : String) :
    ∀ (ps : List PageCapture) (n : Nat) (k : Nat × Nat),
      k ∈ pageKeysFrom now n ps → n ≤ k.1 := by
  intro ps
  induction ps with
  | nil => intro n k h; simp [pageKeysFrom] at h
  | cons p ps ih =>
    intro n k h
    simp only [pageKeysFrom, List.mem_append] at h
    rcases h with h | h
    · rcases List.mem_map.mp h with ⟨r, _, hr⟩
      simp [← hr]
    · exact Nat.le_of_succ_le (ih (n + 1) k h)

theorem pageBlock_pairwise_index (now : String) (p : PageCapture) :
    (pageBlock now p).Pairwise
      (fun a b => a.extraction_index < b.extraction_index) := by
  have h := List.pairwise_lt_range' 1 p.items.length
  rw [← pageBlock_map_index now p, List.pairwise_map] at h
  exact h

theorem pageKeysFrom_pairwise (now : String) :
    ∀ (ps : List PageCapture) (n : Nat),
      (pageKeysFrom now n ps).Pairwise keyLt := by
  intro ps
  induction ps with
  | nil => intro n; simp [pageKeysFrom]
  | cons p ps ih =>
    intro n
    simp only [pageKeysFrom]
    rw [List.pairwise_append]
    refine ⟨?_, ih (n + 1), ?_⟩
    · rw [List.pairwise_map]
      exact (pageBlock_pairwise_index now p).imp (fun h => Or.inr ⟨rfl, h⟩)
    · intro a ha b hb
      rcases List.mem_map.mp ha with ⟨r, _, hr⟩
      have hb1 : n + 1 ≤ b.1 := mem_pageKeysFrom_le now ps (n + 1) b hb
      exact Or.inl (by simp [← hr]; omega)

/-- The file name the scraper gives to the capture of one page sequence
number, with a fixed timestamp. -/
def capFileName (n : Nat) : String :=
  "sinta_journals_page" ++ toString n ++ "_20240101_000000.html"

/-- A capture of the given sequence number holding one candidate fragment. -/
def capOf (n : Nat) : PageCapture :=
  ⟨capFileName n, [emptyJournalItem]⟩

/-- C1 counterexample: on captures of pages 1, 2 and 10 the ETL orders the
page blocks by lexicographic file name, so the block of page 10 comes before
the blocks of pages 1 and 2 and the record sequence is not in ascending
capture sequence order. -/
theorem output_order_counterexample :
    ((transform (sortCaptures [capOf 1, capOf 2, capOf 10]) "T").1.map
        (fun r => r.source_file))
      = [capFileName 10, capFileName 1, capFileName 2]
    ∧ ([capFileName 10, capFileName 1, capFileName 2]
          == [capFileName 1, capFileName 2, capFileName 10]) = false :=
  ⟨by decide, by decide⟩

/-- C1 amended: the ETL concatenates the per-page record blocks in ascending
lexicographic file-name order of the captures, and within each page the
Transformer emits records in document order with extraction index 1..N
bijectively over the N candidate fragments; the keys of the record sequence
are strictly increasing in page-position-then-index order. -/
theorem output_order_lexicographic (pages : List PageCapture) (now : String) :
    (transform (sortCaptures pages) now).1
        = (sortCaptures pages).flatMap (pageBlock now)
      ∧ (sortCaptures pages).map
            (fun p => (pageBlock now p).map (fun r => r.extraction_index))
          = (sortCaptures pages).map (fun p => List.range' 1 p.items.length)
      ∧ (pageKeys now (sortCaptures pages)).Pairwise keyLt
      ∧ (sortCaptures pages).Pairwise (fun a b => strLe a.file b.file = true) := by
  refine ⟨?_, ?_, pageKeysFrom_pairwise now _ 0, sortCaptures_sorted pages⟩
  · rw [transform_spec]
  · exact List.map_congr_left (fun p _ => pageBlock_map_index now p)

/-- C9: replacing the fragment at position k of a page by any other fragment
leaves the extracted record at every other position unchanged: the two runs
of the Transformer agree everywhere except possibly at k. -/
theorem transform_independence (file : String) (items : List JournalItem)
    (k : Nat) (g : JournalItem) (now : String) (i : Nat) (h : i ≠ k) :
    ((transform [⟨file, items⟩] now).1)[i]?
      = ((transform [⟨file, items.set k g⟩] now).1)[i]? := by
  rw [transform_spec, transform_spec]
  simp only [List.flatMap_cons, List.flatMap_nil, List.append_nil]
  rw [pageBlock_eq_map, pageBlock_eq_map]
  simp only [List.getElem?_map, List.getElem?_enum]
  rw [List.getElem?_set_ne (Ne.symm h)]

/-- C9 witness: the independence theorem applied to a concrete page of two
fragments with the fragment at position 0 replaced, compared at position 1. -/
theorem transform_independence_witness :
    ((transform [⟨"f", [exampleItem, emptyJournalItem]⟩] "T").1)[1]?
      = ((transform [⟨"f", ([exampleItem, emptyJournalItem].set 0 hollowJournalItem)⟩] "T").1)[1]? :=
  transform_independence "f" [exampleItem, emptyJournalItem] 0 hollowJournalItem "T" 1
    (by decide)

/-- C10: the Extractor always returns a record, so the per-fragment exception
handler of transform is unreachable; for any extractor behaviour transform
leaves the failed counter untouched, counts successes exactly as the emitted
records, drops fragments whose extraction yields none, and therefore the two
counters together need not account for every candidate fragment seen. -/
theorem transform_stats_invariant :
    (∀ (item : JournalItem) (s : String) (i : Nat) (n : String),
        (extractJournalData item s i n).isSome = true)
      ∧ (∀ (ex : Extractor) (now : String) (pages : List PageCapture)
            (st : TransformStats),
          (transformWith ex now pages ([], st)).1 = pages.flatMap (blockWith ex now)
          ∧ ((transformWith ex now pages ([], st)).2).failed_extractions
              = st.failed_extractions
          ∧ ((transformWith ex now pages ([], st)).2).successful_extractions
              = st.successful_extractions
                  + ((transformWith ex now pages ([], st)).1).length)
      ∧ (∃ (ex : Extractor) (now : String) (pages : List PageCapture)
            (st : TransformStats),
          (((transformWith ex now pages ([], st)).2).successful_extractions
              + ((transformWith ex now pages ([], st)).2).failed_extractions
            == (pages.map (fun p => p.items.length)).sum) = false) := by
  refine ⟨fun item s i n => rfl, fun ex now pages st => ?_, ?_⟩
  · rw [transformWith_spec]
    simp
  · refine ⟨fun _ _ _ _ => none, "", [⟨"f", [emptyJournalItem]⟩], ⟨0, 0⟩, ?_⟩
    decide

/-! ## CSV sink -/

/-- The fieldnames list of the CSV writer, exactly as in the source. -/
def csvFieldnames : List String :=
  ["journal_id", "journal_name", "profile_url", "google_scholar_url",
   "website_url", "editor_url", "affiliation", "affiliation_url",
   "p_issn", "e_issn", "subject_area", "accreditation",
   "is_scopus_indexed", "is_garuda_indexed", "garuda_url",
   "impact_score", "h5_index", "citations_5yr", "citations_total",
   "cover_image_url", "source_file", "extraction_index", "extracted_at"]

/-- Modelled from the spec: the field names of the record table of section 3,
in the order the table lists them, for comparison against the code. -/
def spec3FieldOrder : List String :=
  ["journal_id", "journal_name", "profile_url", "google_scholar_url",
   "website_url", "editor_url", "affiliation_url", "garuda_url",
   "cover_image_url", "affiliation", "p_issn", "e_issn", "subject_area",
   "accreditation", "is_scopus_indexed", "is_garuda_indexed",
   "impact_score", "h5_index", "citations_5yr", "citations_total",
   "source_page_sequence", "extraction_index", "extracted_at"]

/-- Python str of a boolean, the text the csv writer emits for bool values. -/
def pyStrBool (b : Bool) : String := if b then "True" else "False"

/-- One CSV data row: the record's values in fieldname order, strings taken
verbatim, booleans and the integer index rendered by str. -/
def recordToRow (r : JournalData) : List String :=
  [r.journal_id, r.journal_name, r.profile_url, r.google_scholar_url,
   r.website_url, r.editor_url, r.affiliation, r.affiliation_url,
   r.p_issn, r.e_issn, r.subject_area, r.accreditation,
   pyStrBool r.is_scopus_indexed, pyStrBool r.is_garuda_indexed, r.garuda_url,
   r.impact_score, r.h5_index, r.citations_5yr, r.citations_total,
   r.cover_image_url, r.source_file, toString r.extraction_index, r.extracted_at]

/-- The CSV sink: writes nothing on an empty record list, otherwise the header
row followed by one row per record. -/
def saveToCsv (data : List JournalData) : Option (List (List String)) :=
  if data.isEmpty then none
  else some (csvFieldnames :: data.map recordToRow)

/-- C2 counterexample: on a concrete non-empty record list the CSV header has
23 field names, not 22, and its content and order differ from the section 3
field table, which names source_page_sequence where the code writes
source_file. -/
theorem csv_header_counterexample :
    saveToCsv [defaultRecord "f.html" 1 "T"]
        = some (csvFieldnames :: [recordToRow (defaultRecord "f.html" 1 "T")])
      ∧ (csvFieldnames.length == 22) = false
      ∧ (csvFieldnames == spec3FieldOrder) = false :=
  ⟨rfl, by decide, by decide⟩

/-- C2 amended: for every non-empty record list the CSV sink writes a header
row with exactly the 23 field names of the implementation schema in the
implementation order, followed by one row per record with 23 cells each,
string fields verbatim so empty fields stay empty strings, and the two
booleans rendered in Python str form at the positions of their field names. -/
theorem csv_sink_format (data : List JournalData) (h : data.isEmpty = false) :
    saveToCsv data = some (csvFieldnames :: data.map recordToRow)
      ∧ csvFieldnames.length = 23
      ∧ (data.map recordToRow).all (fun row => row.length == 23) = true
      ∧ data.map (fun r => (recordToRow r)[12]?)
          = data.map (fun r => some (pyStrBool r.is_scopus_indexed))
      ∧ data.map (fun r => (recordToRow r)[13]?)
          = data.map (fun r => some (pyStrBool r.is_garuda_indexed)) := by
  refine ⟨by simp [saveToCsv, h], rfl, ?_, ?_, ?_⟩
  · rw [List.all_eq_true]
    intro row hrow
    rcases List.mem_map.mp hrow with ⟨r, _, hr⟩
    rw [← hr]
    rfl
  · exact List.map_congr_left (fun r _ => rfl)
  · exact List.map_congr_left (fun r _ => rfl)

/-- C2 witness: the amended CSV theorem applied to a concrete one-record
list. -/
theorem csv_sink_format_witness :
    ([defaultRecord "f.html" 1 "T"].isEmpty = false)
      ∧ (saveToCsv [defaultRecord "f.html" 1 "T"]
            = some (csvFieldnames :: [defaultRecord "f.html" 1 "T"].map recordToRow)
          ∧ csvFieldnames.length = 23
          ∧ ([defaultRecord "f.html" 1 "T"].map recordToRow).all
              (fun row => row.length == 23) = true
          ∧ [defaultRecord "f.html" 1 "T"].map (fun r => (recordToRow r)[12]?)
              = [defaultRecord "f.html" 1 "T"].map
                  (fun r => some (pyStrBool r.is_scopus_indexed))
          ∧ [defaultRecord "f.html" 1 "T"].map (fun r => (recordToRow r)[13]?)
              = [defaultRecord "f.html" 1 "T"].map
                  (fun r => some (pyStrBool r.is_garuda_indexed))) :=
  ⟨rfl, csv_sink_format [defaultRecord "f.html" 1 "T"] rfl⟩

/-! ## Load and run orchestration -/

/-- The output format selector of load and run. -/
inductive OutFormat
  | csv
  | json
  | both
deriving DecidableEq

/-- Whether the format selector requests the CSV sink. -/
def wantCsv : OutFormat → Bool
  | .csv => true
  | .both => true
  | .json => false

/-- Whether the format selector requests the JSON sink. -/
def wantJson : OutFormat → Bool
  | .json => true
  | .both => true
  | .csv => false

/-- Environment behaviour of the four writes of one load: whether each local
write succeeds (raising otherwise) and whether an HDFS upload succeeds. -/
structure SinkBehavior where
  csvOk : Bool
  jsonOk : Bool
  statsOk : Bool
  hdfsOk : Bool
deriving DecidableEq

/-- Observable outcome of one load call: which local artifacts got written,
the HDFS save and error counters, and whether an exception escaped load. -/
structure LoadTrace where
  csvWritten : Bool
  jsonWritten : Bool
  statsWritten : Bool
  hdfsSaves : Nat
  hdfsErrors : Nat
  raised : Bool
deriving DecidableEq

/-- The HDFS upload helper: guarded on HDFS availability, it catches its own
exceptions, incrementing the save counter on success and the error counter on
failure, and never raises to the caller. -/
def saveToHdfsModel (hdfsOn : Bool) (ok : Bool) (t : LoadTrace) : LoadTrace :=
  if hdfsOn then
    if ok then { t with hdfsSaves := t.hdfsSaves + 1 }
    else { t with hdfsErrors := t.hdfsErrors + 1 }
  else t

/-- The load phase: CSV write then its HDFS upload, JSON write then its HDFS
upload, statistics write then its HDFS upload, in source order; a failing
local write raises out of load, skipping everything after it, while a failing
HDFS upload is absorbed. Run only calls load with a non-empty record set. -/
def loadModel (b : SinkBehavior) (fmt : OutFormat) (hdfsOn : Bool) : LoadTrace :=
  let t0 : LoadTrace := ⟨false, false, false, 0, 0, false⟩
  if wantCsv fmt && !b.csvOk then { t0 with raised := true }
  else
    let t1 :=
      if wantCsv fmt then saveToHdfsModel hdfsOn b.hdfsOk { t0 with csvWritten := true }
      else t0
    if wantJson fmt && !b.jsonOk then { t1 with raised := true }
    else
      let t2 :=
        if wantJson fmt then saveToHdfsModel hdfsOn b.hdfsOk { t1 with jsonWritten := true }
        else t1
      if !b.statsOk then { t2 with raised := true }
      else saveToHdfsModel hdfsOn b.hdfsOk { t2 with statsWritten := true }

/-- The run phase: extract sorts the capture files; an empty capture list or
an empty transformed record list returns early without any load, otherwise
load runs; run itself swallows any exception load raises. -/
def runModel (b : SinkBehavior) (files : List PageCapture) (fmt : OutFormat)
    (hdfsOn : Bool) (now : String) : Option LoadTrace :=
  let extracted := sortCaptures files
  if extracted.isEmpty then none
  else
    if ((transform extracted now).1).isEmpty then none
    else some (loadModel b fmt hdfsOn)

/-- Whether a run produced the statistics artifact. -/
def statsArtifact : Option LoadTrace → Bool
  | none => false
  | some t => t.statsWritten

theorem loadModel_statsWritten (b : SinkBehavior) (fmt : OutFormat) (hdfsOn : Bool) :
    (loadModel b fmt hdfsOn).statsWritten
      = ((!(wantCsv fmt) || b.csvOk) && (!(wantJson fmt) || b.jsonOk) && b.statsOk) := by
  obtain ⟨c, j, s, hd⟩ := b
  cases c <;> cases j <;> cases s <;> cases hd <;> cases fmt <;> cases hdfsOn <;> rfl

/-- C3 counterexample: with every sink configured and exactly the CSV write
failing, the JSON sink is never attempted, the statistics artifact is not
written, and the exception escapes load; the other configured sinks do not
record their own success. -/
theorem sink_isolation_counterexample :
    (SinkBehavior.mk false true true true).jsonOk = true
      ∧ (loadModel ⟨false, true, true, true⟩ OutFormat.both true).jsonWritten = false
      ∧ (loadModel ⟨false, true, true, true⟩ OutFormat.both true).statsWritten = false
      ∧ (loadModel ⟨false, true, true, true⟩ OutFormat.both true).hdfsSaves = 0
      ∧ (loadModel ⟨false, true, true, true⟩ OutFormat.both true).raised = true :=
  ⟨rfl, by decide, by decide, by decide, by decide⟩

/-- C3 amended: only the HDFS upload sink is isolated: when exactly the HDFS
uploads fail, every configured local sink is still attempted and succeeds and
no exception escapes load; when a configured local CSV or JSON write fails,
the statistics write is skipped and the exception escapes. -/
theorem sink_isolation_hdfs_only (fmt : OutFormat) (hdfsOn : Bool) :
    (loadModel ⟨true, true, true, false⟩ fmt hdfsOn).csvWritten = wantCsv fmt
      ∧ (loadModel ⟨true, true, true, false⟩ fmt hdfsOn).jsonWritten = wantJson fmt
      ∧ (loadModel ⟨true, true, true, false⟩ fmt hdfsOn).statsWritten = true
      ∧ (loadModel ⟨true, true, true, false⟩ fmt hdfsOn).raised = false
      ∧ (!(wantCsv fmt)
          || (!(loadModel ⟨false, true, true, true⟩ fmt hdfsOn).statsWritten
              && (loadModel ⟨false, true, true, true⟩ fmt hdfsOn).raised)) = true
      ∧ (!(wantJson fmt)
          || (!(loadModel ⟨true, false, true, true⟩ fmt hdfsOn).statsWritten
              && (loadModel ⟨true, false, true, true⟩ fmt hdfsOn).raised)) = true := by
  cases fmt <;> cases hdfsOn <;> exact ⟨rfl, rfl, rfl, rfl, rfl, rfl⟩

/-- C4 counterexample: a run over zero captures, and a run over one capture
containing zero candidate fragments, both end with no statistics artifact
even though every sink behaves. -/
theorem stats_artifact_counterexample :
    statsArtifact (runModel ⟨true, true, true, true⟩ [] OutFormat.both true "T") = false
      ∧ statsArtifact
          (runModel ⟨true, true, true, true⟩ [⟨"f.html", []⟩] OutFormat.both true "T")
        = false :=
  ⟨rfl, by decide⟩

/-- C4 amended: a run writes the statistics artifact exactly when at least one
capture file is present, the transform yields at least one record, every
requested local format write succeeds, and the statistics write itself
succeeds; in particular a run with zero captures or zero records ends early
writing nothing, and a failing local sink write also suppresses the artifact. -/
theorem stats_artifact_condition (b : SinkBehavior) (files : List PageCapture)
    (fmt : OutFormat) (hdfsOn : Bool) (now : String) :
    statsArtifact (runModel b files fmt hdfsOn now)
      = (!(sortCaptures files).isEmpty
          && !((transform (sortCaptures files) now).1).isEmpty
          && (!(wantCsv fmt) || b.csvOk) && (!(wantJson fmt) || b.jsonOk)
          && b.statsOk) := by
  unfold runModel
  by_cases h1 : (sortCaptures files).isEmpty
  · simp [h1, statsArtifact]
  · by_cases h2 : ((transform (sortCaptures files) now).1).isEmpty
    · simp [h1, h2, statsArtifact]
    · simp [h1, h2, statsArtifact, loadModel_statsWritten, Bool.and_assoc]

/-! ## Link classification categories -/

/-- The scholar category condition of the classification chain. -/
def catScholar (l : Anchor) : Bool := substr "scholar.google" l.href

/-- The website category condition: reached only past the scholar branch. -/
def catWebsite (l : Anchor) : Bool :=
  !catScholar l && (substr "Website" (pyStrip l.text) || substr "el-globe" l.markup)

/-- The editor category condition: reached only past the scholar and website
branches. -/
def catEditor (l : Anchor) : Bool :=
  !catScholar l && !(substr "Website" (pyStrip l.text) || substr "el-globe" l.markup)
    && (substr "Editor URL" (pyStrip l.text) || substr "el-globe-alt" l.markup)

/-- The URL the loop leaves in a category register: the default, overwritten
by each matching anchor in turn. -/
def updLast (p : Anchor → Bool) (d : String) : List Anchor → String
  | [] => d
  | l :: ls => updLast p (if p l then l.href else d) ls

/-- The href of the last anchor of the list satisfying the category
condition, empty if none does. -/
def lastMatchHref (p : Anchor → Bool) (links : List Anchor) : String :=
  match (links.filter p).getLast? with
  | some l => l.href
  | none => ""

theorem classifyStep_eq (acc : String × String × String) (l : Anchor) :
    classifyStep acc l
      = (if catScholar l then l.href else acc.1,
          if catWebsite l then l.href else acc.2.1,
          if catEditor l then l.href else acc.2.2) := by
  simp only [classifyStep, catScholar, catWebsite, catEditor]
  by_cases h1 : substr "scholar.google" l.href = true
  · simp [h1]
  · by_cases h2 : (substr "Website" (pyStrip l.text) || substr "el-globe" l.markup) = true
    · simp [h1, h2]
    · by_cases h3 : (substr "Editor URL" (pyStrip l.text) || substr "el-globe-alt" l.markup) = true
      · simp [h1, h2, h3]
      · simp [h1, h2, h3]

theorem classifyLinks_foldl (links : List Anchor) :
    ∀ (a b c : String),
      links.foldl classifyStep (a, b, c)
        = (updLast catScholar a links, updLast catWebsite b links,
            updLast catEditor c links) := by
  induction links with
  | nil => intro a b c; rfl
  | cons l ls ih =>
    intro a b c
    rw [List.foldl_cons, classifyStep_eq, ih]
    rfl

theorem updLast_concat (p : Anchor → Bool) (x : Anchor) :
    ∀ (xs : List Anchor) (d : String),
      updLast p d (xs ++ [x]) = if p x then x.href else updLast p d xs := by
  intro xs
  induction xs with
  | nil => intro d; rfl
  | cons y ys ihy => intro d; exact ihy (if p y then y.href else d)

theorem updLast_eq_getLast (p : Anchor → Bool) (ls : List Anchor) :
    ∀ d, updLast p d ls
      = (match (ls.filter p).getLast? with
          | some l => l.href
          | none => d) := by
  induction ls using List.reverseRecOn with
  | nil => intro d; rfl
  | append_singleton xs x ih =>
    intro d
    rw [updLast_concat p x xs d, List.filter_append]
    by_cases hx : p x
    · simp [hx, List.getLast?_concat]
    · simp [hx, ih d]

/-- Scholar link anchor with one URL. -/
def anchorA : Anchor := ⟨"https://scholar.google.com/citations?user=a", "", ""⟩

/-- Scholar link anchor with another URL. -/
def anchorB : Anchor := ⟨"https://scholar.google.com/citations?user=b", "", ""⟩

/-- C5 counterexample: two anchors both match the scholar category, yet the
recorded scholar URL is the second anchor's href, not the first matching
anchor's, because each match overwrites the register. -/
theorem link_classification_counterexample :
    catScholar anchorA = true
      ∧ catScholar anchorB = true
      ∧ (classifyLinks [anchorA, anchorB]).1 = anchorB.href
      ∧ (anchorB.href == anchorA.href) = false :=
  ⟨by decide, by decide, by decide, by decide⟩

/-- C5 amended: each anchor of the abbrev container matches at most one of the
scholar, website and editor categories, decided by the substring tests of the
source chain; the URL recorded for each category is the href of the last
anchor matching that category, empty when none matches, so unmatched anchors
leave the fields unchanged. -/
theorem link_classification_last_match (links : List Anchor) :
    classifyLinks links
        = (lastMatchHref catScholar links, lastMatchHref catWebsite links,
            lastMatchHref catEditor links)
      ∧ ∀ l : Anchor,
          (catScholar l && catWebsite l) = false
          ∧ (catScholar l && catEditor l) = false
          ∧ (catWebsite l && catEditor l) = false := by
  constructor
  · rw [classifyLinks, classifyLinks_foldl links "" "" "",
      updLast_eq_getLast, updLast_eq_getLast, updLast_eq_getLast]
    rfl
  · intro l
    simp only [catScholar, catWebsite, catEditor]
    cases hs : substr "scholar.google" l.href <;>
      cases hw : (substr "Website" (pyStrip l.text) || substr "el-globe" l.markup) <;>
        simp [hs, hw]

/-! ## Pagination crawl loop -/

/-- What the renderer reports when the loop looks for the next-page control:
the control is absent, the control is present with its class attribute,
aria-disabled attribute, href attribute, whether it becomes clickable in
time, and whether the click call succeeds, or the lookup itself fails with an
unexpected renderer error. -/
inductive NextControl where
  | absent
  | present (cls ariaDisabled : Option String) (href : Option String)
      (clickable : Bool) (clickOk : Bool)
  | failure
deriving DecidableEq

/-- Python str.lower restricted to the ASCII case mapping. -/
def pyLower (s : String) : String := String.mk (s.data.map Char.toLower)

/-- The disabled test of the loop: disabled in the lowercased class, a
lowercased aria-disabled of true, or a missing, blank or javascript href. -/
def disabledFlags (cls aria : Option String) (href : Option String) : Bool :=
  substr "disabled" (pyLower (cls.getD ""))
    || (pyLower (aria.getD "") == "true")
    || (match href with
        | none => true
        | some h => h == "" || pyStrip h == "" || leadEq ("javascript:".data) h.data)

/-- The hard safety cap on the number of captured pages. -/
def maxPages : Nat := 23

/-- Outcome of the crawl: how many pages were captured and whether the loop
ended through the unexpected-failure path. -/
structure CrawlResult where
  pages : Nat
  aborted : Bool
deriving DecidableEq

/-- The pagination loop from a current page count: stop at the cap, stop on
an absent control, stop on a disabled control, stop when the control never
becomes clickable or the click fails, abort on an unexpected renderer
failure, otherwise advance, capture the next page and repeat. -/
def crawlFrom (r : Nat → NextControl) (page : Nat) : CrawlResult :=
  if h : maxPages ≤ page then ⟨page, false⟩
  else
    match r page with
    | .absent => ⟨page, false⟩
    | .failure => ⟨page, true⟩
    | .present cls aria href clickable clickOk =>
      if disabledFlags cls aria href then ⟨page, false⟩
      else if !clickable then ⟨page, false⟩
      else if !clickOk then ⟨page, false⟩
      else crawlFrom r (page + 1)
termination_by maxPages - page
decreasing_by omega

/-- The crawl: page one is captured before the loop starts. -/
def crawl (r : Nat → NextControl) : CrawlResult := crawlFrom r 1

/-- The termination signal of the specification: the control is absent or
reported disabled. -/
def specStop : NextControl → Bool
  | .absent => true
  | .present cls aria href _ _ => disabledFlags cls aria href
  | .failure => false

/-- A control state on which the loop advances to the next page. -/
def advances : NextControl → Bool
  | .present cls aria href clickable clickOk =>
    !disabledFlags cls aria href && clickable && clickOk
  | _ => false

theorem crawlFrom_le (r : Nat → NextControl) :
    ∀ (fuel page : Nat), page ≤ maxPages → maxPages - page ≤ fuel →
      (crawlFrom r page).pages ≤ maxPages := by
  intro fuel
  induction fuel with
  | zero =>
    intro page h1 h2
    have hp : page = maxPages := by omega
    subst hp
    rw [crawlFrom]
    simp
  | succ fuel ih =>
    intro page h1 h2
    rw [crawlFrom]
    by_cases hc : maxPages ≤ page
    · simp [hc]
      exact h1
    · simp only [hc, dite_false]
      cases r page with
      | absent => simpa using h1
      | failure => simpa using h1
      | present cls aria href clickable clickOk =>
        by_cases hd : disabledFlags cls aria href
        · simp [hd]; omega
        · by_cases hcl : clickable
          · by_cases hok : clickOk
            · simp only [hd, hcl, hok, if_false, ite_false, Bool.not_true]
              exact ih (page + 1) (by omega) (by omega)
            · simp [hd, hcl, hok]; omega
          · simp [hd, hcl]; omega

theorem crawlFrom_stop (r : Nat → NextControl) (n : Nat)
    (hn : specStop (r n) = true) :
    ∀ (fuel page : Nat), 1 ≤ page → page ≤ maxPages → page ≤ n →
      (∀ k, k < n → page ≤ k → advances (r k) = true) →
      maxPages - page ≤ fuel →
      crawlFrom r page = ⟨min n maxPages, false⟩ := by
  intro fuel
  induction fuel with
  | zero =>
    intro page h1 h2 h3 h4 h5
    have hp : page = maxPages := by omega
    subst hp
    rw [crawlFrom]
    simp only [le_refl, dite_true]
    have hm : min n maxPages = maxPages := by omega
    rw [hm]
  | succ fuel ih =>
    intro page h1 h2 h3 h4 h5
    by_cases hc : maxPages ≤ page
    · have hp : page = maxPages := by omega
      subst hp
      rw [crawlFrom]
      simp only [le_refl, dite_true]
      have hm : min n maxPages = maxPages := by omega
      rw [hm]
    · by_cases hpn : page = n
      · subst hpn
        cases hr : r page with
        | absent =>
          rw [crawlFrom]
          simp only [hc, dite_false, hr]
          have hm : min page maxPages = page := by omega
          rw [hm]
        | failure => rw [hr] at hn; simp [specStop] at hn
        | present cls aria href clickable clickOk =>
          rw [hr] at hn
          simp only [specStop] at hn
          rw [crawlFrom]
          simp only [hc, dite_false, hr, hn, if_true, ite_true]
          have hm : min page maxPages = page := by omega
          rw [hm]
      · have hlt : page < n := by omega
        have hadv : advances (r page) = true := h4 page hlt le_rfl
        cases hr : r page with
        | absent => rw [hr] at hadv; simp [advances] at hadv
        | failure => rw [hr] at hadv; simp [advances] at hadv
        | present cls aria href clickable clickOk =>
          rw [hr] at hadv
          simp only [advances, Bool.and_eq_true] at hadv
          have hd : disabledFlags cls aria href = false := by
            simpa using hadv.1.1
          have hrec : crawlFrom r page = crawlFrom r (page + 1) := by
            rw [crawlFrom]
            simp [hc, hr, hd, hadv.1.2, hadv.2]
          rw [hrec]
          exact ih (page + 1) (by omega) (by omega) (by omega)
            (fun k hk hpk => h4 k hk (by omega)) (by omega)

/-- C7: for every renderer behaviour the crawl loop terminates with at most
the hard cap of 23 page captures, and whenever the renderer reports an
absent or disabled next-page control at position n after advancing on every
earlier page, the loop ends normally, not aborted, with min n 23 captures. -/
theorem crawl_termination (r : Nat → NextControl) :
    (crawl r).pages ≤ maxPages
      ∧ ∀ n, 1 ≤ n → specStop (r n) = true →
          (∀ k, k < n → 1 ≤ k → advances (r k) = true) →
          crawl r = ⟨min n maxPages, false⟩ := by
  constructor
  · exact crawlFrom_le r maxPages 1 (by decide) (by decide)
  · intro n h1 h2 h3
    exact crawlFrom_stop r n h2 maxPages 1 le_rfl (by decide) h1 h3 (by decide)

/-- A renderer that advances on pages one and two and reports the control
absent on page three. -/
def demoRenderer (k : Nat) : NextControl :=
  if k < 3 then
    NextControl.present (some "page-link") none
      (some "https://sinta.example/journals?page=2") true true
  else NextControl.absent

/-- C7 witness: the termination theorem applied to the three-page renderer,
every hypothesis discharged by evaluation: the crawl ends at three captures,
not aborted. -/
theorem crawl_termination_witness :
    (1 ≤ 3 ∧ specStop (demoRenderer 3) = true
        ∧ (∀ k, k < 3 → 1 ≤ k → advances (demoRenderer k) = true))
      ∧ crawl demoRenderer = ⟨min 3 maxPages, false⟩ :=
  ⟨⟨by decide, by decide, by decide⟩,
    (crawl_termination demoRenderer).2 3 (by decide) (by decide) (by decide)⟩
